import Mathlib

/-!
Shallow embedding of the upload-validation / storage pipeline and the
authentication gate of the medical-imaging backend (src/file_utils.py,
src/auth_utils.py, src/crud.py, src/main.py), with theorems checking the
natural-language specification against it.

Modelling conventions:
* Python exceptions become `Except`; an HTTP error carries status, detail
  body and response headers.
* Byte strings become `List Nat`; the filesystem (the upload root) becomes
  an association list from path to stored bytes.
* Sources of nondeterminism that the code reads from the outside world
  (the `magic` MIME sniffer, `uuid.uuid4`, the bcrypt comparison, the
  clock, the environment, whether a disk operation fails) are passed in as
  explicit arguments, so every definition is executable and deterministic
  in its inputs, exactly as the code is for a fixed outside world.
-/

namespace MedImg

/-- HTTP error as raised via fastapi HTTPException: status code, detail
body, and response headers. -/
structure HTTPError where
  status : Nat
  detail : String
  headers : List (String × String)
deriving DecidableEq, Repr

/-! ### Python `pathlib` and `str` helpers used by file_utils -/

/-- Splits a character list at every slash character, keeping empty
components, mirroring how a POSIX path string separates into components. -/
def splitOnSlash : List Char → List (List Char)
  | [] => [[]]
  | c :: cs =>
    if c = '/' then [] :: splitOnSlash cs
    else (c :: (splitOnSlash cs).headD []) :: (splitOnSlash cs).tail

/-- Final component of a path, as Python `pathlib.PurePosixPath(s).name`:
components are the slash-separated pieces with empty pieces and single-dot
pieces dropped; the name is the last remaining component, or empty. -/
def pathName (s : List Char) : List Char :=
  ((splitOnSlash s).filter (fun c => !(c == []) && !(c == ['.']))).getLast?.getD []

/-- Splits a character list at its first dot: returns the characters
before the first dot and those after it, or none if there is no dot. -/
def breakAtDot : List Char → Option (List Char × List Char)
  | [] => none
  | c :: cs =>
    if c = '.' then some ([], cs)
    else (breakAtDot cs).map (fun p => (c :: p.1, p.2))

/-- Python `pathlib.PurePosixPath(s).suffix`: with `name` the final
component and `i` the index of its last dot, the suffix is `name[i:]` when
`0 < i < len(name) - 1` and empty otherwise. Scanning the reversed name
for its first dot, the condition says both sides of that dot are
nonempty. -/
def pySuffixList (name : List Char) : String :=
  match breakAtDot name.reverse with
  | some (pre, rest) =>
    if pre = [] ∨ rest = [] then "" else String.mk ('.' :: pre.reverse)
  | none => ""

def pySuffix (s : String) : String :=
  pySuffixList (pathName s.toList)

/-- Python `str.lower` on one character, for the ASCII range the code
feeds it (filename extensions). -/
def pyLowerChar (c : Char) : Char :=
  if 65 ≤ c.toNat ∧ c.toNat ≤ 90 then Char.ofNat (c.toNat + 32) else c

/-- Python `str.lower` over a string. -/
def strLower (s : String) : String :=
  String.mk (s.toList.map pyLowerChar)

/-! ### file_utils constants and validators -/

def UPLOAD_DIR : String := "uploads"

def MAX_FILE_SIZE : Nat := 10 * 1024 * 1024

def ALLOWED_EXTENSIONS : List String := [".jpg", ".jpeg", ".png", ".gif", ".dcm"]

def ALLOWED_MIME_TYPES : List String :=
  ["image/jpeg", "image/png", "image/gif", "application/dicom"]

/-- file_utils.validate_file_extension: lowercased `pathlib` suffix of the
claimed filename must be in the allow-list, else HTTP 400. -/
def validate_file_extension (filename : String) : Except HTTPError Unit :=
  let extension := strLower (pySuffix filename)
  if extension ∈ ALLOWED_EXTENSIONS then .ok ()
  else .error ⟨400, "File extension \x27" ++ extension ++ "\x27 is not allowed.", []⟩

/-- Rounds num/den to the nearest integer, ties to even, for den > 0; this
is the rounding IEEE-754 binary formatting applies. -/
def round_half_even (num den : Nat) : Nat :=
  let q := num / den
  let r := num % den
  if den < 2 * r then q + 1
  else if 2 * r < den then q
  else if q % 2 = 0 then q else q + 1

/-- Two-digit zero-padded rendering of a value below 100. -/
def pad2 (n : Nat) : String :=
  if n < 10 then "0" ++ toString n else toString n

/-- Python `f"{bytes/(1024*1024):.2f}"`: bytes/2^20 is exact in binary
floating point for the sizes at hand, and `.2f` rounds that exact dyadic
value to hundredths, ties to even. -/
def formatMB2 (bytes : Nat) : String :=
  let cent := round_half_even (bytes * 100) (1024 * 1024)
  toString (cent / 100) ++ "." ++ pad2 (cent % 100)

/-- file_utils.validate_file_size: sizes above MAX_FILE_SIZE fail with
HTTP 400 and a message giving actual and maximum size in MB to two
decimals. -/
def validate_file_size (file_size : Nat) : Except HTTPError Unit :=
  if file_size > MAX_FILE_SIZE then
    .error ⟨400,
      "File size " ++ formatMB2 file_size ++
        " MB exceeds the maximum allowed size of " ++ formatMB2 MAX_FILE_SIZE ++ " MB.", []⟩
  else .ok ()

/-- file_utils.validate_mime_type: classify the bytes with the `magic`
sniffer (passed in as a function) and require the sniffed type to be in
the allow-list, else HTTP 400. -/
def validate_mime_type (magic : List Nat → String) (file_content : List Nat) :
    Except HTTPError String :=
  let mime := magic file_content
  if mime ∈ ALLOWED_MIME_TYPES then .ok mime
  else .error ⟨400, "File type \x27" ++ mime ++ "\x27 is not allowed.", []⟩

/-- file_utils.generate_unique_filename: the fresh uuid4 string (passed in
as the `uuid` argument) concatenated with the lowercased `pathlib` suffix
of the original filename. -/
def generate_unique_filename (uuid : String) (original_filename : String) : String :=
  uuid ++ strLower (pySuffix original_filename)

/-- Shape of `str(uuid.uuid4())`: 36 characters, each a digit, a
lowercase hex letter or a hyphen. -/
def is_uuid4_string (s : String) : Bool :=
  s.length == 36 &&
    s.toList.all (fun c => c.isDigit || (97 ≤ c.toNat && c.toNat ≤ 102) || c == '-')

/-- The observable steps of save_upload_file, in source order. -/
inductive UploadEvent
  | checkExt
  | readPayload
  | checkSize
  | checkSniff
  | genName
  | writeFile
deriving DecidableEq, Repr

/-- The inbound multipart file: claimed filename and payload bytes. -/
structure UploadFileIn where
  filename : String
  content : List Nat
deriving DecidableEq, Repr

/-- The upload root as an association list from path to stored bytes. -/
abbrev FileSystem := List (String × List Nat)

/-- file_utils.save_upload_file: extension check on the claimed name, read
the payload, size check, MIME sniff on the first 2048 bytes, generate the
unique name, write. Returns the endpoint result, the resulting upload
root, and the trace of steps that ran. `writeFails` says whether the
open/write raises (caught and re-raised as HTTP 500; the OS error text in
the 500 detail is abstracted away); an open that fails still creates the
empty file. -/
def save_upload_file (magic : List Nat → String) (uuid : String) (writeFails : Bool)
    (upload_file : UploadFileIn) (fs : FileSystem) :
    Except HTTPError (String × String × String × Nat) × FileSystem × List UploadEvent :=
  match validate_file_extension upload_file.filename with
  | .error e => (.error e, fs, [.checkExt])
  | .ok _ =>
    let file_content := upload_file.content
    let file_size := file_content.length
    match validate_file_size file_size with
    | .error e => (.error e, fs, [.checkExt, .readPayload, .checkSize])
    | .ok _ =>
      match validate_mime_type magic (file_content.take 2048) with
      | .error e => (.error e, fs, [.checkExt, .readPayload, .checkSize, .checkSniff])
      | .ok _ =>
        let unique_filename := generate_unique_filename uuid upload_file.filename
        let file_path := UPLOAD_DIR ++ "/" ++ unique_filename
        if writeFails then
          (.error ⟨500, "Failed to save file.", []⟩, (file_path, []) :: fs,
            [.checkExt, .readPayload, .checkSize, .checkSniff, .genName, .writeFile])
        else
          (.ok (upload_file.filename, unique_filename, file_path, file_size),
            (file_path, file_content) :: fs,
            [.checkExt, .readPayload, .checkSize, .checkSniff, .genName, .writeFile])

/-! ### auth_utils: token service and access gate

The JWT machinery lives in the third-party `python-jose` library; the repo
calls `jwt.encode` / `jwt.decode`. The model below follows jose's
documented behaviour: a token string either fails structural parsing
(modelled as `none`) or carries a payload and a signature; `jwt.decode`
recomputes the keyed MAC over the payload with the given secret, rejects
on mismatch, then rejects when the `exp` claim is strictly in the past
(`exp < now`, zero leeway, times truncated to whole seconds). The MAC
itself (HMAC-SHA256) is abstracted as an explicit function argument
`mac`. -/

/-- The claims dict the login route passes to create_access_token:
sub (the user id, modelled optional since get_current_user guards
against its absence), email and role. -/
structure JWTClaims where
  sub : Option String
  email : String
  role : String
deriving DecidableEq, Repr

/-- Payload actually signed: the claims plus the absolute expiry instant
in whole seconds. -/
structure TokenPayload where
  claims : JWTClaims
  exp : Nat
deriving DecidableEq, Repr

/-- A structurally well-formed token: payload plus signature value. -/
structure JWTToken where
  payload : TokenPayload
  sig : Nat
deriving DecidableEq, Repr

/-- The three failure causes inside jose's jwt.decode. -/
inductive JWTErr
  | malformed
  | badSignature
  | expired
deriving DecidableEq, Repr

/-- jose jwt.decode over the model: a structurally malformed token string
(`none`) fails; a signature that does not recompute fails; an expiry
strictly in the past (`exp < now`) fails; otherwise the payload is
returned. -/
def jose_jwt_decode (mac : String → TokenPayload → Nat) (secret : String)
    (token : Option JWTToken) (now : Nat) : Except JWTErr TokenPayload :=
  match token with
  | none => .error .malformed
  | some t =>
    if t.sig = mac secret t.payload then
      if t.payload.exp < now then .error .expired else .ok t.payload
    else .error .badSignature

/-- auth_utils.create_access_token: expiry is now plus the explicit delta
when given, else now plus the configured default in minutes; the payload
is signed with the process-wide secret. Times in whole seconds. -/
def create_access_token (mac : String → TokenPayload → Nat) (secret : String)
    (accessTokenExpireMinutes : Nat) (now : Nat) (data : JWTClaims)
    (expires_delta : Option Nat) : JWTToken :=
  let expire :=
    match expires_delta with
    | some d => now + d
    | none => now + accessTokenExpireMinutes * 60
  let payload : TokenPayload := ⟨data, expire⟩
  ⟨payload, mac secret payload⟩

/-- The uniform error decode_access_token raises for every JWTError. -/
def credentialsException : HTTPError :=
  ⟨401, "Could not validate credentials", [("WWW-Authenticate", "Bearer")]⟩

/-- auth_utils.decode_access_token: any jose failure is mapped to the one
401 response `credentialsException`. -/
def decode_access_token (mac : String → TokenPayload → Nat) (secret : String)
    (token : Option JWTToken) (now : Nat) : Except HTTPError TokenPayload :=
  match jose_jwt_decode mac secret token now with
  | .ok payload => .ok payload
  | .error _ => .error credentialsException

/-- User row (auth_models.User), fields the gate reads. -/
structure User where
  id : String
  email : String
  hashed_password : String
  full_name : String
  role : String
  is_active : Bool
deriving DecidableEq, Repr

/-- auth_utils.get_current_user: decode the token (any decode failure
propagates as the uniform 401), require a `sub` claim (401), look the
user up by id (401 with a distinct body), then require the active flag
(403). -/
def get_current_user (mac : String → TokenPayload → Nat) (secret : String)
    (db : List User) (token : Option JWTToken) (now : Nat) : Except HTTPError User :=
  match decode_access_token mac secret token now with
  | .error e => .error e
  | .ok payload =>
    match payload.claims.sub with
    | none => .error ⟨401, "Invalid authentication credentials", []⟩
    | some user_id =>
      match db.find? (fun u => u.id == user_id) with
      | none => .error ⟨401, "User not found", []⟩
      | some user =>
        if user.is_active then .ok user
        else .error ⟨403, "User account is disabled", []⟩

/-! ### auth_utils module initialization (configuration loading) -/

/-- The two ways `int(os.getenv(...))` can raise at import time. -/
inductive PyStartupError
  | typeError
  | valueError
deriving DecidableEq, Repr

/-- Python `int()` on a string: optional sign then one or more ASCII
digits (surrounding whitespace and underscore separators are not
exercised by the configuration values and are not modelled). -/
def pyParseInt (s : String) : Option Int :=
  let parseDigits : List Char → Option Nat := fun l =>
    if l = [] then none
    else if l.all (fun c => c.isDigit) then
      some (l.foldl (fun acc c => acc * 10 + (c.toNat - 48)) 0)
    else none
  match s.toList with
  | '-' :: rest => (parseDigits rest).map (fun n => -(n : Int))
  | '+' :: rest => (parseDigits rest).map (fun n => (n : Int))
  | l => (parseDigits l).map (fun n => (n : Int))

/-- Module-level configuration established at import. -/
structure AuthConfig where
  secret_key : Option String
  algorithm : String
  access_token_expire_minutes : Int
deriving DecidableEq, Repr

/-- Import-time evaluation of auth_utils's module body:
SECRET_KEY = os.getenv("SECRET_KEY") stores whatever the environment has,
None included, with no check; ALGORITHM is the fixed "HS256";
ACCESS_TOKEN_EXPIRE_MINUTES = int(os.getenv(...)) raises TypeError when
the variable is absent (int(None)) and ValueError when it does not parse
as an integer — those are the only ways this module body fails. -/
def auth_module_init (env : String → Option String) : Except PyStartupError AuthConfig :=
  let secret := env "SECRET_KEY"
  match env "ACCESS_TOKEN_EXPIRE_MINUTES" with
  | none => .error .typeError
  | some s =>
    match pyParseInt s with
    | none => .error .valueError
    | some n => .ok ⟨secret, "HS256", n⟩

/-! ### auth_utils.verify_password (delegation to passlib) -/

/-- Failure raised by passlib when a hash cannot be identified. -/
inductive PasslibError
  | unknownHash
deriving DecidableEq, Repr

/-- Tests whether the second list starts with the first. -/
def listStartsWith : List Char → List Char → Bool
  | [], _ => true
  | _ :: _, [] => false
  | p :: ps, c :: cs => p == c && listStartsWith ps cs

/-- Recognizer for bcrypt hash strings, following passlib's bcrypt
handler: the string opens with one of the bcrypt ident markers and has
the fixed encoded length. -/
def is_bcrypt_hash (s : String) : Bool :=
  (listStartsWith "$2b$".toList s.toList || listStartsWith "$2a$".toList s.toList ||
    listStartsWith "$2y$".toList s.toList || listStartsWith "$2x$".toList s.toList) &&
    s.length == 60

/-- auth_utils.verify_password is exactly `pwd_context.verify` of a
passlib CryptContext configured with the bcrypt scheme. Per passlib's
documented contract, CryptContext.verify raises UnknownHashError (a
ValueError) when the hash string cannot be identified as one of the
configured schemes; only an identified hash is compared, with the bcrypt
comparison abstracted as the function argument `bcrypt_verify`. -/
def verify_password (bcrypt_verify : String → String → Bool)
    (plain_password : String) (hashed_password : String) : Except PasslibError Bool :=
  if is_bcrypt_hash hashed_password then .ok (bcrypt_verify plain_password hashed_password)
  else .error .unknownHash

/-! ### file_utils.delete_file, crud.delete_image and the image endpoints -/

/-- file_utils.delete_file: if the path exists, unlink it; every
exception is caught and printed (the OS error text in the log line is
abstracted away), nothing propagates. `unlinkFails` says whether the
unlink raises. Returns the new filesystem and the log lines printed. -/
def delete_file (unlinkFails : Bool) (fs : FileSystem) (file_path : String) :
    FileSystem × List String :=
  if (fs.find? (fun p => p.1 == file_path)).isSome then
    if unlinkFails then (fs, ["Error deleting file " ++ file_path ++ ": oserror"])
    else (fs.filter (fun p => !(p.1 == file_path)), [])
  else (fs, [])

/-- Image row (image_models.Image), fields the endpoints read. -/
structure ImageRow where
  id : String
  study_id : String
  filename : String
  stored_filename : String
  file_path : String
  file_size : Nat
  mime_type : String
deriving DecidableEq, Repr

/-- The two externally visible steps of crud.delete_image, in source
order: the committed row deletion, then the blob unlink attempt. -/
inductive DeleteStep
  | rowDeleteCommit
  | blobUnlink
deriving DecidableEq, Repr

/-- Outcome of crud.delete_image: return value, database, filesystem,
log lines, and the step trace. -/
structure DeleteImageResult where
  deleted : Bool
  db : List ImageRow
  fs : FileSystem
  log : List String
  steps : List DeleteStep
deriving DecidableEq, Repr

/-- crud.delete_image: look the row up (absent: return False, nothing
happens); otherwise remember file_path, delete the row and commit, then
best-effort delete_file, and return True whatever the unlink did. -/
def crud_delete_image (unlinkFails : Bool) (db : List ImageRow) (fs : FileSystem)
    (image_id : String) : DeleteImageResult :=
  match db.find? (fun i => i.id == image_id) with
  | none => ⟨false, db, fs, [], []⟩
  | some db_image =>
    let file_path := db_image.file_path
    let db' := db.filter (fun i => !(i.id == image_id))
    let (fs', log) := delete_file unlinkFails fs file_path
    ⟨true, db', fs', log, [.rowDeleteCommit, .blobUnlink]⟩

/-- Study row (models.Study), the field the endpoints read. -/
structure StudyRow where
  id : String
deriving DecidableEq, Repr

/-- main.download_image: 404 for missing study, 404 for missing image,
403 when the image's owning study differs from the path's study id, 404
when the blob is gone, else a FileResponse (path, media type, download
filename). Pure read: no state is returned because none is changed. -/
def main_download_image (studies : List StudyRow) (images : List ImageRow)
    (fs : FileSystem) (study_id image_id : String) :
    Except HTTPError (String × String × String) :=
  match studies.find? (fun s => s.id == study_id) with
  | none => .error ⟨404, "Study with ID " ++ study_id ++ " not found", []⟩
  | some _ =>
    match images.find? (fun i => i.id == image_id) with
    | none => .error ⟨404, "Image with ID " ++ image_id ++ " not found", []⟩
    | some image =>
      if image.study_id ≠ study_id then
        .error ⟨403, "Image with ID " ++ image_id ++ " does not belong to Study with ID " ++
          study_id, []⟩
      else if (fs.find? (fun p => p.1 == image.file_path)).isSome then
        .ok (image.file_path, image.mime_type, image.filename)
      else
        .error ⟨404, "File for Image with ID " ++ image_id ++ " not found on server", []⟩

/-- main.delete_image endpoint: 404 for missing study, 404 for missing
image, 403 when the image's owning study differs from the path's study
id; only past those checks does crud.delete_image run. Returns the
response plus the resulting image table and filesystem. -/
def main_delete_image (unlinkFails : Bool) (studies : List StudyRow)
    (images : List ImageRow) (fs : FileSystem) (study_id image_id : String) :
    Except HTTPError Unit × List ImageRow × FileSystem :=
  match studies.find? (fun s => s.id == study_id) with
  | none => (.error ⟨404, "Study with ID " ++ study_id ++ " not found", []⟩, images, fs)
  | some _ =>
    match images.find? (fun i => i.id == image_id) with
    | none => (.error ⟨404, "Image with ID " ++ image_id ++ " not found", []⟩, images, fs)
    | some image =>
      if image.study_id ≠ study_id then
        (.error ⟨403, "Image with ID " ++ image_id ++ " does not belong to Study with ID " ++
          study_id, []⟩, images, fs)
      else
        let r := crud_delete_image unlinkFails images fs image_id
        (.ok (), r.db, r.fs)

deriving instance DecidableEq for Except

/-! ### Helper lemmas about the path and string models -/

theorem splitOnSlash_ne_nil (l : List Char) : splitOnSlash l ≠ [] := by
  cases l with
  | nil => simp [splitOnSlash]
  | cons c cs =>
    unfold splitOnSlash
    by_cases hc : c = '/' <;> simp [hc]

theorem no_slash_of_mem_splitOnSlash :
    ∀ (l : List Char) (comp : List Char), comp ∈ splitOnSlash l → '/' ∉ comp := by
  intro l
  induction l with
  | nil =>
    intro comp h
    simp [splitOnSlash] at h
    simp [h]
  | cons c cs ih =>
    intro comp h
    unfold splitOnSlash at h
    by_cases hc : c = '/'
    · rw [if_pos hc] at h
      rcases List.mem_cons.mp h with h | h
      · simp [h]
      · exact ih comp h
    · rw [if_neg hc] at h
      cases hs : splitOnSlash cs with
      | nil => exact absurd hs (splitOnSlash_ne_nil cs)
      | cons hd tl =>
        rw [hs] at h
        simp only [List.headD_cons, List.tail_cons] at h
        rcases List.mem_cons.mp h with h | h
        · subst h
          intro hmem
          rcases List.mem_cons.mp hmem with h | h
          · exact hc h.symm
          · exact ih hd (hs ▸ List.mem_cons_self hd tl) h
        · exact ih comp (hs ▸ List.mem_cons_of_mem hd h)

theorem pathName_no_slash (s : List Char) : '/' ∉ pathName s := by
  unfold pathName
  cases h : ((splitOnSlash s).filter (fun c => !(c == []) && !(c == ['.']))).getLast? with
  | none => simp [h]
  | some comp =>
    simp only [h, Option.getD_some]
    have hmem : comp ∈ (splitOnSlash s).filter (fun c => !(c == []) && !(c == ['.'])) :=
      List.mem_of_mem_getLast? (by rw [h]; exact Option.mem_some_self comp)
    exact no_slash_of_mem_splitOnSlash s comp (List.mem_filter.mp hmem).1

theorem breakAtDot_eq_append :
    ∀ (l pre rest : List Char), breakAtDot l = some (pre, rest) → l = pre ++ '.' :: rest := by
  intro l
  induction l with
  | nil => intro pre rest h; simp [breakAtDot] at h
  | cons c cs ih =>
    intro pre rest h
    unfold breakAtDot at h
    by_cases hc : c = '.'
    · rw [if_pos hc] at h
      simp at h
      simp [hc, ← h.1, ← h.2]
    · rw [if_neg hc] at h
      cases hb : breakAtDot cs with
      | none => rw [hb] at h; simp at h
      | some p =>
        rw [hb] at h
        simp at h
        obtain ⟨h1, h2⟩ := h
        have := ih p.1 p.2 (by rw [hb])
        rw [← h1, ← h2]
        simp [← this]

theorem pySuffixList_no_slash (name : List Char) (hname : '/' ∉ name) :
    '/' ∉ (pySuffixList name).toList := by
  unfold pySuffixList
  cases hb : breakAtDot name.reverse with
  | none => simp [hb]
  | some pr =>
    obtain ⟨pre, rest⟩ := pr
    simp only [hb]
    by_cases hpr : pre = [] ∨ rest = []
    · simp [hpr]
    · rw [if_neg hpr]
      intro hmem
      have hmem' : '/' ∈ ('.' :: pre.reverse) := hmem
      rcases List.mem_cons.mp hmem' with h | h
      · simp at h
      · have hpre : '/' ∈ pre := List.mem_reverse.mp h
        have heq := breakAtDot_eq_append _ pre rest hb
        have : '/' ∈ name.reverse := by
          rw [heq]
          exact List.mem_append_left _ hpre
        exact hname (List.mem_reverse.mp this)

theorem pySuffix_no_slash (s : String) : '/' ∉ (pySuffix s).toList :=
  pySuffixList_no_slash (pathName s.toList) (pathName_no_slash s.toList)

theorem char_ofNat_add32_toNat (n : Nat) (h1 : 65 ≤ n) (h2 : n ≤ 90) :
    (Char.ofNat (n + 32)).toNat = n + 32 := by
  interval_cases n <;> decide

theorem pyLowerChar_eq_slash {c : Char} (h : pyLowerChar c = '/') : c = '/' := by
  unfold pyLowerChar at h
  split at h
  · next hc =>
    exfalso
    have hval := congrArg Char.toNat h
    rw [char_ofNat_add32_toNat c.toNat hc.1 hc.2] at hval
    have : ('/' : Char).toNat = 47 := by decide
    omega
  · exact h

theorem strLower_no_slash (s : String) (h : '/' ∉ s.toList) : '/' ∉ (strLower s).toList := by
  unfold strLower
  intro hmem
  have hmem' : '/' ∈ s.toList.map pyLowerChar := hmem
  obtain ⟨c, hc, hlow⟩ := List.mem_map.mp hmem'
  exact h (pyLowerChar_eq_slash hlow ▸ hc)

/-! ### Claim theorems -/

/-- C7: validate_file_size succeeds exactly when the byte length is at
most 10 MiB; on failure the 400 detail reports the actual and the maximum
size in MB to two decimals, and at 11 MiB those figures are 11.00 and
10.00. -/
theorem validate_file_size_spec (n : Nat) :
    (validate_file_size n = .ok () ↔ n ≤ 10 * 1024 * 1024) ∧
    (10 * 1024 * 1024 < n →
      validate_file_size n = .error ⟨400,
        "File size " ++ formatMB2 n ++ " MB exceeds the maximum allowed size of " ++
          formatMB2 (10 * 1024 * 1024) ++ " MB.", []⟩) ∧
    formatMB2 (11 * 1024 * 1024) = "11.00" ∧ formatMB2 (10 * 1024 * 1024) = "10.00" := by
  have hM : MAX_FILE_SIZE = 10 * 1024 * 1024 := rfl
  refine ⟨?_, ?_, by decide, by decide⟩
  · unfold validate_file_size
    by_cases h : n > MAX_FILE_SIZE
    · rw [if_pos h]
      exact iff_of_false (by intro hc; cases hc) (by omega)
    · rw [if_neg h]
      exact iff_of_true rfl (by omega)
  · intro h
    unfold validate_file_size
    rw [if_pos (by omega), hM]

/-- Witness for C7 at an 11 MiB payload. -/
theorem validate_file_size_spec_witness :
    10 * 1024 * 1024 < 11 * 1024 * 1024 ∧
    validate_file_size (11 * 1024 * 1024) = .error ⟨400,
      "File size " ++ formatMB2 (11 * 1024 * 1024) ++
        " MB exceeds the maximum allowed size of " ++
        formatMB2 (10 * 1024 * 1024) ++ " MB.", []⟩ :=
  ⟨by norm_num, (validate_file_size_spec (11 * 1024 * 1024)).2.1 (by norm_num)⟩

/-- C5: the stored name is the fresh uuid4 identifier concatenated with
the lowercased extension of the original filename; it contains no path
separator, is not a relative-path component, and differs whenever the
fresh identifier differs, whatever the (attacker-chosen) original
filename is. -/
theorem generate_unique_filename_spec (uuid original : String)
    (h : is_uuid4_string uuid = true) :
    generate_unique_filename uuid original = uuid ++ strLower (pySuffix original) ∧
    '/' ∉ (generate_unique_filename uuid original).toList ∧
    generate_unique_filename uuid original ≠ "." ∧
    generate_unique_filename uuid original ≠ ".." ∧
    (∀ uuid2 : String, uuid2 ≠ uuid →
      generate_unique_filename uuid2 original ≠ generate_unique_filename uuid original) := by
  unfold is_uuid4_string at h
  rw [Bool.and_eq_true] at h
  obtain ⟨hlen, hall⟩ := h
  have hlen0 : uuid.length = 36 := by simpa using hlen
  have hlen' : uuid.data.length = 36 := hlen0
  have hchars := List.all_eq_true.mp hall
  have hnoslash : '/' ∉ uuid.data := by
    intro hmem
    have := hchars '/' hmem
    simp at this
  refine ⟨rfl, ?_, ?_, ?_, ?_⟩
  · intro hmem
    have hmem' : '/' ∈ uuid.data ++ (strLower (pySuffix original)).data := hmem
    rcases List.mem_append.mp hmem' with hmem'' | hmem''
    · exact hnoslash hmem''
    · exact strLower_no_slash _ (pySuffix_no_slash original) hmem''
  · intro heq
    have hl := congrArg (fun s => s.data.length) heq
    have h1 : (uuid.data ++ (strLower (pySuffix original)).data).length =
        (".".data).length := hl
    rw [List.length_append] at h1
    have h2 : (".".data).length = 1 := rfl
    omega
  · intro heq
    have hl := congrArg (fun s => s.data.length) heq
    have h1 : (uuid.data ++ (strLower (pySuffix original)).data).length =
        ("..".data).length := hl
    rw [List.length_append] at h1
    have h2 : ("..".data).length = 2 := rfl
    omega
  · intro uuid2 hne heq
    apply hne
    have hdata := congrArg String.data heq
    have hdata' : uuid2.data ++ (strLower (pySuffix original)).data =
        uuid.data ++ (strLower (pySuffix original)).data := hdata
    exact String.toList_inj.mp (List.append_cancel_right hdata')

/-- Witness for C5 at a concrete uuid4 string and original filename. -/
theorem generate_unique_filename_spec_witness :
    is_uuid4_string "123e4567-e89b-42d3-a456-426614174000" = true ∧
    generate_unique_filename "123e4567-e89b-42d3-a456-426614174000" "My Scan.DCM" =
      "123e4567-e89b-42d3-a456-426614174000" ++ strLower (pySuffix "My Scan.DCM") ∧
    '/' ∉ (generate_unique_filename "123e4567-e89b-42d3-a456-426614174000"
      "My Scan.DCM").toList :=
  ⟨by decide,
    (generate_unique_filename_spec "123e4567-e89b-42d3-a456-426614174000" "My Scan.DCM"
      (by decide)).1,
    (generate_unique_filename_spec "123e4567-e89b-42d3-a456-426614174000" "My Scan.DCM"
      (by decide)).2.1⟩

/-- C1: the steps of save_upload_file are always an initial segment of
the fixed order extension check, payload read, size check, content sniff,
name generation, write; an extension failure stops before the payload is
read and leaves the upload root unchanged; a size failure stops before
the sniff with the root unchanged; a sniff failure stops before the write
with the root unchanged. -/
theorem save_upload_file_ordered_checks (magic : List Nat → String) (uuid : String)
    (writeFails : Bool) (f : UploadFileIn) (fs : FileSystem) :
    (∃ k, (save_upload_file magic uuid writeFails f fs).2.2 =
      [UploadEvent.checkExt, .readPayload, .checkSize, .checkSniff, .genName,
        .writeFile].take k) ∧
    (∀ e, validate_file_extension f.filename = .error e →
      save_upload_file magic uuid writeFails f fs = (.error e, fs, [.checkExt])) ∧
    (∀ e, validate_file_extension f.filename = .ok () →
      validate_file_size f.content.length = .error e →
      save_upload_file magic uuid writeFails f fs =
        (.error e, fs, [.checkExt, .readPayload, .checkSize])) ∧
    (∀ e, validate_file_extension f.filename = .ok () →
      validate_file_size f.content.length = .ok () →
      validate_mime_type magic (f.content.take 2048) = .error e →
      save_upload_file magic uuid writeFails f fs =
        (.error e, fs, [.checkExt, .readPayload, .checkSize, .checkSniff])) := by
  refine ⟨?_, ?_, ?_, ?_⟩
  · unfold save_upload_file
    rcases h1 : validate_file_extension f.filename with e1 | u1
    · simp only [h1]
      exact ⟨1, rfl⟩
    · simp only [h1]
      rcases h2 : validate_file_size f.content.length with e2 | u2
      · simp only [h2]
        exact ⟨3, rfl⟩
      · simp only [h2]
        rcases h3 : validate_mime_type magic (f.content.take 2048) with e3 | m
        · simp only [h3]
          exact ⟨4, rfl⟩
        · simp only [h3]
          cases writeFails <;> exact ⟨6, rfl⟩
  · intro e he
    unfold save_upload_file
    simp only [he]
  · intro e hok hsz
    unfold save_upload_file
    simp only [hok, hsz]
  · intro e hok hsz hmime
    unfold save_upload_file
    simp only [hok, hsz, hmime]

/-- Witness for C1: an upload named scan.exe fails the extension check,
runs no later step, and leaves the upload root unchanged. -/
theorem save_upload_file_ordered_checks_witness :
    validate_file_extension "scan.exe" =
      .error ⟨400, "File extension \x27.exe\x27 is not allowed.", []⟩ ∧
    save_upload_file (fun _ => "image/png") "u" false ⟨"scan.exe", [0, 1, 2]⟩ [("x", [])] =
      (.error ⟨400, "File extension \x27.exe\x27 is not allowed.", []⟩, [("x", [])],
        [UploadEvent.checkExt]) :=
  ⟨by decide,
    (save_upload_file_ordered_checks (fun _ => "image/png") "u" false ⟨"scan.exe", [0, 1, 2]⟩
      [("x", [])]).2.1 _ (by decide)⟩

/-- C3: a verifying, unexpired token whose sub claim resolves to an
existing user with a false active flag makes get_current_user fail with
the 403 disabled error, and that 403 arises in no other situation: it
requires decode success, a sub claim, and a successful lookup of an
inactive user. -/
theorem get_current_user_inactive_forbidden (mac : String → TokenPayload → Nat)
    (secret : String) (db : List User) (token : Option JWTToken) (now : Nat) :
    (∀ payload uid user,
      jose_jwt_decode mac secret token now = .ok payload →
      payload.claims.sub = some uid →
      db.find? (fun u => u.id == uid) = some user →
      user.is_active = false →
      get_current_user mac secret db token now =
        .error ⟨403, "User account is disabled", []⟩) ∧
    (get_current_user mac secret db token now =
        .error ⟨403, "User account is disabled", []⟩ →
      ∃ payload uid user,
        jose_jwt_decode mac secret token now = .ok payload ∧
        payload.claims.sub = some uid ∧
        db.find? (fun u => u.id == uid) = some user ∧
        user.is_active = false) := by
  constructor
  · intro payload uid user hdec hsub hfind hact
    unfold get_current_user decode_access_token
    simp only [hdec, hsub, hfind, hact]
    simp
  · intro h
    unfold get_current_user decode_access_token at h
    rcases hdec : jose_jwt_decode mac secret token now with err | payload
    · simp only [hdec] at h
      simp [credentialsException] at h
    · simp only [hdec] at h
      rcases hsub : payload.claims.sub with _ | uid
      · simp only [hsub] at h
        simp at h
      · simp only [hsub] at h
        rcases hfind : db.find? (fun u => u.id == uid) with _ | user
        · simp only [hfind] at h
          simp at h
        · simp only [hfind] at h
          cases hact : user.is_active
          · exact ⟨payload, uid, user, rfl, hsub, hfind, hact⟩
          · rw [hact] at h
            simp at h

/-- Witness for C3: a signed unexpired token for the deactivated user 42
is rejected with the 403 disabled error. -/
theorem get_current_user_inactive_forbidden_witness :
    jose_jwt_decode (fun _ _ => 0) "s"
        (some ⟨⟨⟨some "42", "a@b.c", "PATIENT"⟩, 100⟩, 0⟩) 5 =
      .ok ⟨⟨some "42", "a@b.c", "PATIENT"⟩, 100⟩ ∧
    get_current_user (fun _ _ => 0) "s"
        [⟨"42", "a@b.c", "h", "A", "PATIENT", false⟩]
        (some ⟨⟨⟨some "42", "a@b.c", "PATIENT"⟩, 100⟩, 0⟩) 5 =
      .error ⟨403, "User account is disabled", []⟩ :=
  ⟨by decide,
    (get_current_user_inactive_forbidden (fun _ _ => 0) "s"
        [⟨"42", "a@b.c", "h", "A", "PATIENT", false⟩]
        (some ⟨⟨⟨some "42", "a@b.c", "PATIENT"⟩, 100⟩, 0⟩) 5).1
      ⟨⟨some "42", "a@b.c", "PATIENT"⟩, 100⟩ "42"
      ⟨"42", "a@b.c", "h", "A", "PATIENT", false⟩
      (by decide) (by decide) (by decide) (by decide)⟩

/-- C2 counterexample: a malformed-token failure and an
identity-id-not-found failure surface different errors — the bodies are
"Could not validate credentials" versus "User not found" — so the error
is not identical across failure causes. -/
theorem get_current_user_failure_bodies_differ_cex :
    get_current_user (fun _ _ => 0) "s" [] none 0 = .error credentialsException ∧
    get_current_user (fun _ _ => 0) "s" []
        (some ⟨⟨⟨some "ghost", "g@x", "PATIENT"⟩, 100⟩, 0⟩) 0 =
      .error ⟨401, "User not found", []⟩ ∧
    credentialsException ≠ ⟨401, "User not found", []⟩ := by
  refine ⟨by decide, by decide, by decide⟩

/-- C2 amended: the three token-verification causes (malformed, bad
signature, expired) all surface the one identical 401 error with body
"Could not validate credentials"; an identity-id-not-found failure also
carries status 401 but its body is the distinct "User not found". -/
theorem token_failures_uniform_user_lookup_distinct
    (mac : String → TokenPayload → Nat) (secret : String) (now : Nat) :
    (∀ t e, jose_jwt_decode mac secret t now = .error e →
      decode_access_token mac secret t now = .error credentialsException) ∧
    (∀ t1 t2 e1 e2, jose_jwt_decode mac secret t1 now = .error e1 →
      jose_jwt_decode mac secret t2 now = .error e2 →
      decode_access_token mac secret t1 now = decode_access_token mac secret t2 now) ∧
    (∀ (db : List User) t payload uid,
      jose_jwt_decode mac secret t now = .ok payload →
      payload.claims.sub = some uid →
      db.find? (fun u => u.id == uid) = none →
      get_current_user mac secret db t now = .error ⟨401, "User not found", []⟩) := by
  have huni : ∀ t e, jose_jwt_decode mac secret t now = .error e →
      decode_access_token mac secret t now = .error credentialsException := by
    intro t e h
    unfold decode_access_token
    simp only [h]
  refine ⟨huni, ?_, ?_⟩
  · intro t1 t2 e1 e2 h1 h2
    rw [huni t1 e1 h1, huni t2 e2 h2]
  · intro db t payload uid hdec hsub hfind
    unfold get_current_user decode_access_token
    simp only [hdec, hsub, hfind]

/-- Witness for the amended C2 at concrete failing tokens: a malformed
token maps to the uniform 401, and a valid token whose subject is not in
the user table maps to the distinct "User not found" body. -/
theorem token_failures_uniform_user_lookup_distinct_witness :
    decode_access_token (fun _ _ => 0) "s" none 0 = .error credentialsException ∧
    get_current_user (fun _ _ => 0) "s" []
        (some ⟨⟨⟨some "ghost", "g@x", "PATIENT"⟩, 100⟩, 0⟩) 0 =
      .error ⟨401, "User not found", []⟩ :=
  ⟨(token_failures_uniform_user_lookup_distinct (fun _ _ => 0) "s" 0).1 none .malformed
      (by decide),
    (token_failures_uniform_user_lookup_distinct (fun _ _ => 0) "s" 0).2.2 []
      (some ⟨⟨⟨some "ghost", "g@x", "PATIENT"⟩, 100⟩, 0⟩)
      ⟨⟨some "ghost", "g@x", "PATIEN" ++ "T"⟩, 100⟩ "ghost" (by decide) (by decide)
      (by decide)⟩

/-- C4 counterexample: a token issued at time 0 with ttl 60 seconds is
still accepted at the instant 60 = issue-time + ttl, where the claim
requires verification to fail. -/
theorem decode_accepts_at_expiry_instant_cex :
    decode_access_token (fun _ _ => 0) "k"
        (some (create_access_token (fun _ _ => 0) "k" 30 0 ⟨some "1", "e", "r"⟩ (some 60)))
        60 =
      .ok ⟨⟨some "1", "e", "r"⟩, 60⟩ := by
  decide

/-- C4 amended: a token issued with ttl t verifies at every instant up to
and including issue-time + t and fails at every instant strictly after
(python-jose rejects only when exp < now, at whole-second granularity);
and any token jose's decode accepts has a signature that recomputes under
the signing key and an expiry not in the past. -/
theorem token_expiry_inclusive_spec (mac : String → TokenPayload → Nat)
    (secret : String) (ttlMin s t v : Nat) (data : JWTClaims) :
    (decode_access_token mac secret
        (some (create_access_token mac secret ttlMin s data (some t))) v =
        .ok ⟨data, s + t⟩ ↔ v ≤ s + t) ∧
    (s + t < v →
      decode_access_token mac secret
        (some (create_access_token mac secret ttlMin s data (some t))) v =
        .error credentialsException) ∧
    (∀ tok payload, jose_jwt_decode mac secret (some tok) v = .ok payload →
      tok.sig = mac secret tok.payload ∧ v ≤ tok.payload.exp ∧ payload = tok.payload) := by
  have hred : ∀ w : Nat, decode_access_token mac secret
      (some (create_access_token mac secret ttlMin s data (some t))) w =
      if s + t < w then .error credentialsException else .ok ⟨data, s + t⟩ := by
    intro w
    unfold decode_access_token jose_jwt_decode create_access_token
    simp only [if_pos rfl]
    by_cases hw : s + t < w
    · simp [hw]
    · simp [hw]
  refine ⟨?_, ?_, ?_⟩
  · rw [hred v]
    by_cases hv : s + t < v
    · rw [if_pos hv]
      exact iff_of_false (by intro hc; cases hc) (by omega)
    · rw [if_neg hv]
      exact iff_of_true rfl (by omega)
  · intro hv
    rw [hred v, if_pos hv]
  · intro tok payload h
    have h' : (if tok.sig = mac secret tok.payload then
          if tok.payload.exp < v then Except.error JWTErr.expired
          else Except.ok tok.payload
        else Except.error JWTErr.badSignature) = Except.ok payload := h
    by_cases hsig : tok.sig = mac secret tok.payload
    · rw [if_pos hsig] at h'
      by_cases hexp : tok.payload.exp < v
      · rw [if_pos hexp] at h'
        cases h'
      · rw [if_neg hexp] at h'
        injection h' with h'
        exact ⟨hsig, by omega, h'.symm⟩
    · rw [if_neg hsig] at h'
      cases h'

/-- Witness for the amended C4: the token issued at 0 with ttl 60 is
accepted at instant 10 and at the boundary instant 60, and rejected at
61; its signature recomputes under the key. -/
theorem token_expiry_inclusive_spec_witness :
    (decode_access_token (fun _ _ => 0) "k"
        (some (create_access_token (fun _ _ => 0) "k" 30 0 ⟨some "1", "e", "r"⟩ (some 60)))
        10 = .ok ⟨⟨some "1", "e", "r"⟩, 0 + 60⟩) ∧
    (decode_access_token (fun _ _ => 0) "k"
        (some (create_access_token (fun _ _ => 0) "k" 30 0 ⟨some "1", "e", "r"⟩ (some 60)))
        61 = .error credentialsException) :=
  ⟨(token_expiry_inclusive_spec (fun _ _ => 0) "k" 30 0 60 10 ⟨some "1", "e", "r"⟩).1.mpr
      (by norm_num),
    (token_expiry_inclusive_spec (fun _ _ => 0) "k" 30 0 60 61 ⟨some "1", "e", "r"⟩).2.1
      (by norm_num)⟩

/-- Behaviour of delete_file in its three situations: absent path is a
no-op with no error and no log; a failing unlink is swallowed and logged
with the filesystem unchanged; a successful unlink removes the entry. -/
theorem delete_file_spec (unlinkFails : Bool) (fs : FileSystem) (p : String) :
    ((fs.find? (fun q => q.1 == p)).isSome = false →
      delete_file unlinkFails fs p = (fs, [])) ∧
    ((fs.find? (fun q => q.1 == p)).isSome = true → unlinkFails = true →
      delete_file unlinkFails fs p = (fs, ["Error deleting file " ++ p ++ ": oserror"])) ∧
    ((fs.find? (fun q => q.1 == p)).isSome = true → unlinkFails = false →
      delete_file unlinkFails fs p = (fs.filter (fun q => !(q.1 == p)), [])) := by
  unfold delete_file
  refine ⟨?_, ?_, ?_⟩
  · intro h
    simp [h]
  · intro h hu
    simp [h, hu]
  · intro h hu
    simp [h, hu]

/-- C6: the outcome of crud.delete_image (return value and resulting
image table) is the same whatever the filesystem holds and whether or not
the unlink fails; the row-deletion commit step precedes the unlink step;
an already-absent blob leaves delete_file a no-op with the deletion still
succeeding; and a failing unlink is logged while the committed row
deletion stands and nothing propagates. -/
theorem delete_image_row_first_blob_best_effort (unlinkFails : Bool) (db : List ImageRow)
    (fs : FileSystem) (image_id : String) :
    ((crud_delete_image unlinkFails db fs image_id).deleted =
        (crud_delete_image false db [] image_id).deleted ∧
      (crud_delete_image unlinkFails db fs image_id).db =
        (crud_delete_image false db [] image_id).db) ∧
    ((crud_delete_image unlinkFails db fs image_id).steps = [] ∨
      (crud_delete_image unlinkFails db fs image_id).steps =
        [DeleteStep.rowDeleteCommit, DeleteStep.blobUnlink]) ∧
    (∀ img, db.find? (fun i => i.id == image_id) = some img →
      (fs.find? (fun p => p.1 == img.file_path)).isSome = false →
      delete_file unlinkFails fs img.file_path = (fs, []) ∧
      crud_delete_image unlinkFails db fs image_id =
        ⟨true, db.filter (fun i => !(i.id == image_id)), fs, [], [.rowDeleteCommit, .blobUnlink]⟩) ∧
    (∀ img, db.find? (fun i => i.id == image_id) = some img →
      (fs.find? (fun p => p.1 == img.file_path)).isSome = true →
      unlinkFails = true →
      crud_delete_image unlinkFails db fs image_id =
        ⟨true, db.filter (fun i => !(i.id == image_id)), fs,
          ["Error deleting file " ++ img.file_path ++ ": oserror"],
          [.rowDeleteCommit, .blobUnlink]⟩) := by
  rcases hf : db.find? (fun i => i.id == image_id) with _ | img
  · refine ⟨?_, ?_, ?_, ?_⟩
    · unfold crud_delete_image
      simp [hf]
    · unfold crud_delete_image
      simp only [hf]
      exact Or.inl trivial
    · intro b hb
      rw [hf] at hb
      cases hb
    · intro b hb
      rw [hf] at hb
      cases hb
  · refine ⟨?_, ?_, ?_, ?_⟩
    · unfold crud_delete_image
      simp [hf]
    · unfold crud_delete_image
      simp only [hf]
      exact Or.inr trivial
    · intro b hb habsent
      rw [hf] at hb
      injection hb with hb
      subst hb
      have hno := (delete_file_spec unlinkFails fs img.file_path).1 habsent
      refine ⟨hno, ?_⟩
      unfold crud_delete_image
      simp [hf, hno]
    · intro b hb hpresent hu
      rw [hf] at hb
      injection hb with hb
      subst hb
      have hlog := (delete_file_spec unlinkFails fs img.file_path).2.1 hpresent hu
      unfold crud_delete_image
      simp [hf, hlog]

/-- Witness for C6: deleting image i1 whose blob is already gone from the
upload root still succeeds with the row deleted, the filesystem untouched
and nothing logged. -/
theorem delete_image_row_first_blob_best_effort_witness :
    ([(⟨"i1", "s1", "f.png", "u.png", "uploads/u.png", 3, "image/png"⟩ : ImageRow)].find?
        (fun i => i.id == "i1")) =
      some (⟨"i1", "s1", "f.png", "u.png", "uploads/u.png", 3, "image/png"⟩ : ImageRow) ∧
    crud_delete_image false
        [(⟨"i1", "s1", "f.png", "u.png", "uploads/u.png", 3, "image/png"⟩ : ImageRow)]
        [("uploads/other.png", [1])] "i1" =
      ⟨true, [], [("uploads/other.png", [1])], [], [.rowDeleteCommit, .blobUnlink]⟩ :=
  ⟨by decide,
    by
      have h := (delete_image_row_first_blob_best_effort false
        [(⟨"i1", "s1", "f.png", "u.png", "uploads/u.png", 3, "image/png"⟩ : ImageRow)]
        [("uploads/other.png", [1])] "i1").2.2.1
        ⟨"i1", "s1", "f.png", "u.png", "uploads/u.png", 3, "image/png"⟩
        (by decide) (by decide)
      simpa using h.2⟩

/-- C8 counterexample: the empty string is not a well-formed password
hash, and verify_password raises passlib's UnknownHashError on it — it
does not return false. -/
theorem verify_password_raises_on_malformed_cex :
    is_bcrypt_hash "" = false ∧
    verify_password (fun _ _ => false) "pw" "" = .error .unknownHash ∧
    (Except.error PasslibError.unknownHash : Except PasslibError Bool) ≠ .ok false := by
  refine ⟨by decide, by decide, by decide⟩

/-- C8 amended: verify_password is total only on recognized bcrypt hash
strings, where it returns the bcrypt comparison outcome; on any string
passlib cannot identify it raises UnknownHashError instead of returning
false. -/
theorem verify_password_spec (bcrypt_verify : String → String → Bool)
    (plain hash : String) :
    (is_bcrypt_hash hash = true →
      verify_password bcrypt_verify plain hash = .ok (bcrypt_verify plain hash)) ∧
    (is_bcrypt_hash hash = false →
      verify_password bcrypt_verify plain hash = .error .unknownHash) := by
  unfold verify_password
  constructor <;> intro hh <;> simp [hh]

/-- Witness for the amended C8: a well-shaped bcrypt string is compared,
the empty string raises. -/
theorem verify_password_spec_witness :
    verify_password (fun _ _ => true) "pw"
        "$2b$12$abcdefghijklmnopqrstuvwxyzABCDEFGHIJKLMNOPQRSTUVWXYZa" = .ok true ∧
    verify_password (fun _ _ => true) "pw" "" = .error .unknownHash :=
  ⟨by
      have h := (verify_password_spec (fun _ _ => true) "pw"
        "$2b$12$abcdefghijklmnopqrstuvwxyzABCDEFGHIJKLMNOPQRSTUVWXYZa").1 (by decide)
      simpa using h,
    (verify_password_spec (fun _ _ => true) "pw" "").2 (by decide)⟩

/-- C9 counterexample: with SECRET_KEY absent from the environment but
the lifetime variable set, the auth_utils module body evaluates without
error — startup succeeds and the secret is simply None; moreover a
negative lifetime is accepted, so positivity is not enforced. -/
theorem auth_module_init_missing_secret_cex :
    auth_module_init
        (fun k => if k = "ACCESS_TOKEN_EXPIRE_MINUTES" then some "30" else none) =
      .ok ⟨none, "HS256", 30⟩ ∧
    auth_module_init
        (fun k => if k = "SECRET_KEY" then some "s"
          else if k = "ACCESS_TOKEN_EXPIRE_MINUTES" then some "-5" else none) =
      .ok ⟨some "s", "HS256", -5⟩ := by
  refine ⟨by decide, by decide⟩

/-- C9 amended: module import fails exactly when the lifetime variable is
absent (TypeError from int(None)) or not an integer literal (ValueError);
the signing secret is read once with no validation, so its absence does
not fail startup, and the parsed lifetime is stored whatever its sign. -/
theorem auth_module_init_spec (env : String → Option String) :
    (env "ACCESS_TOKEN_EXPIRE_MINUTES" = none →
      auth_module_init env = .error .typeError) ∧
    (∀ s, env "ACCESS_TOKEN_EXPIRE_MINUTES" = some s → pyParseInt s = none →
      auth_module_init env = .error .valueError) ∧
    (∀ s n, env "ACCESS_TOKEN_EXPIRE_MINUTES" = some s → pyParseInt s = some n →
      auth_module_init env = .ok ⟨env "SECRET_KEY", "HS256", n⟩) := by
  refine ⟨?_, ?_, ?_⟩
  · intro h
    unfold auth_module_init
    simp only [h]
  · intro s hs hp
    unfold auth_module_init
    simp only [hs, hp]
  · intro s n hs hp
    unfold auth_module_init
    simp only [hs, hp]

/-- Witness for the amended C9 at a concrete secretless environment. -/
theorem auth_module_init_spec_witness :
    auth_module_init
        (fun k => if k = "ACCESS_TOKEN_EXPIRE_MINUTES" then some "45" else none) =
      .ok ⟨(fun k => if k = "ACCESS_TOKEN_EXPIRE_MINUTES" then some "45" else none)
        "SECRET_KEY", "HS256", 45⟩ :=
  (auth_module_init_spec
      (fun k => if k = "ACCESS_TOKEN_EXPIRE_MINUTES" then some "45" else none)).2.2
    "45" 45 (by decide) (by decide)

/-- C10: when the study and the image both exist but the image belongs to
a different study than the one in the path, both the download and the
delete endpoint answer the 403 ownership error, and the delete endpoint
leaves the image table and the upload root exactly as they were. -/
theorem image_ownership_enforced (unlinkFails : Bool) (studies : List StudyRow)
    (images : List ImageRow) (fs : FileSystem) (study_id image_id : String)
    (st : StudyRow) (img : ImageRow)
    (hst : studies.find? (fun s => s.id == study_id) = some st)
    (himg : images.find? (fun i => i.id == image_id) = some img)
    (hmis : img.study_id ≠ study_id) :
    main_download_image studies images fs study_id image_id =
      .error ⟨403, "Image with ID " ++ image_id ++ " does not belong to Study with ID " ++
        study_id, []⟩ ∧
    main_delete_image unlinkFails studies images fs study_id image_id =
      (.error ⟨403, "Image with ID " ++ image_id ++ " does not belong to Study with ID " ++
        study_id, []⟩, images, fs) := by
  unfold main_download_image main_delete_image
  simp only [hst, himg, if_pos hmis]
  exact ⟨trivial, trivial⟩

/-- Witness for C10: image i1 owned by study s2 accessed through study s1
yields 403 on download and on delete, with table and filesystem
untouched. -/
theorem image_ownership_enforced_witness :
    main_download_image [⟨"s1"⟩] [⟨"i1", "s2", "f", "u", "p", 1, "m"⟩] [("p", [])]
        "s1" "i1" =
      .error ⟨403, "Image with ID " ++ "i1" ++ " does not belong to Study with ID " ++
        "s1", []⟩ ∧
    main_delete_image false [⟨"s1"⟩] [⟨"i1", "s2", "f", "u", "p", 1, "m"⟩] [("p", [])]
        "s1" "i1" =
      (.error ⟨403, "Image with ID " ++ "i1" ++ " does not belong to Study with ID " ++
        "s1", []⟩, [⟨"i1", "s2", "f", "u", "p", 1, "m"⟩], [("p", [])]) :=
  image_ownership_enforced false [⟨"s1"⟩] [⟨"i1", "s2", "f", "u", "p", 1, "m"⟩] [("p", [])]
    "s1" "i1" ⟨"s1"⟩ ⟨"i1", "s2", "f", "u", "p", 1, "m"⟩ (by decide) (by decide) (by decide)

end MedImg
